import Mathlib

/-!
Shallow embedding of the ai-news-agg content-ingestion and digest-generation
pipeline. Python strings are modelled as lists of characters; Python string
operations (`split` on a separator, `strip`, `strip` with a character set,
`startswith`, substring membership, slicing) are modelled by executable list
functions below. Fallible external calls (the model completion service, the
per-source connectors) are modelled as function parameters returning `Option`
or `Except`; the mutable article store is modelled as an explicit state value
threaded through the operations.
-/

/-- Python strings modelled as lists of characters. -/
abbrev Str := List Char

/-- Bool test that `s` starts with `pre` (Python `s.startswith(pre)`). -/
def strStarts : Str → Str → Bool
  | [], _ => true
  | _ :: _, [] => false
  | c :: p, d :: s => c == d && strStarts p s

/-- Bool test that `sub` occurs as a contiguous substring (Python `sub in s`). -/
def containsSub (sub : Str) : Str → Bool
  | [] => strStarts sub []
  | c :: rest => strStarts sub (c :: rest) || containsSub sub rest

/-- Fueled worker for `pySplit`; the fuel is the length of the string, so the
recursion is structural and kernel-reducible. -/
def pySplitAux (sep : Str) : Nat → Str → List Str
  | _, [] => [[]]
  | 0, s => [s]
  | fuel + 1, c :: rest =>
    if strStarts sep (c :: rest) && !sep.isEmpty then
      [] :: pySplitAux sep fuel (List.drop (sep.length - 1) rest)
    else
      match pySplitAux sep fuel rest with
      | [] => [[c]]
      | h :: t => (c :: h) :: t

/-- Python `s.split(sep)` for a non-empty separator: leftmost, non-overlapping
occurrences of `sep` divide `s` into pieces (empty pieces preserved). -/
def pySplit (sep s : Str) : List Str :=
  pySplitAux sep s.length s

/-- Drop matching characters from the end of a list. -/
def dropTrail (p : Char → Bool) (s : Str) : Str :=
  (s.reverse.dropWhile p).reverse

/-- Python `s.strip(chars)`: remove the characters satisfying `p` from both
ends of the string. -/
def pyStripBy (p : Char → Bool) (s : Str) : Str :=
  dropTrail p (s.dropWhile p)

/-- Python's whitespace test for `str.strip()` on ASCII input. -/
def pyIsSpace (c : Char) : Bool :=
  c == ' ' || c == '\t' || c == '\n' || c == '\r' || c == '\x0b' || c == '\x0c'

/-- Python `s.strip()`: remove whitespace from both ends. -/
def pyStrip (s : Str) : Str :=
  pyStripBy pyIsSpace s

/-- Character set of Python `strip("- ")`. -/
def isDashSpace (c : Char) : Bool :=
  c == '-' || c == ' '

/-- Python `s.strip("- ")`. -/
def pyStripDashSpace (s : Str) : Str :=
  pyStripBy isDashSpace s

/-- Python `sep.join(xs)`. -/
def joinSep (sep : Str) : List Str → Str
  | [] => []
  | [x] => x
  | x :: xs => x ++ sep ++ joinSep sep xs

/-! ## Data model of the summarizer (`app/agent/summarizer.py`) -/

/-- Transient per-article summary (`ArticleSummary` dataclass). -/
structure ArticleSummary where
  article_id : Nat
  title : Str
  url : Str
  snippet : Str
  key_points : List Str
deriving DecidableEq

/-- Transient digest summary (`DigestSummary` dataclass). -/
structure DigestSummary where
  overall_summary : Str
  insights : List Str
  article_summaries : List ArticleSummary
deriving DecidableEq

/-! Marker and sentinel strings used by `AISummarizer`. -/

def sSNIPPET : Str := ("SNIPPET:").data

def sKEYPOINTS : Str := ("KEY POINTS:").data

def sOVERALL : Str := ("OVERALL SUMMARY:").data

def sINSIGHTS : Str := ("KEY INSIGHTS:").data

def sNL : Str := ("\n").data

def sDash : Str := ("-").data

def sContentNA : Str := ("Content not available for analysis.").data

def sUnableSnippet : Str := ("Unable to generate snippet.").data

def sErrorSummary : Str := ("Error generating summary.").data

def sNoArticles : Str := ("No articles to summarize.").data

def sUnableOverall : Str := ("Unable to generate overall summary.").data

def sErrorOverall : Str := ("Error generating overall summary.").data

/-- Truthiness of an optional Python string: `None` and `""` are falsy. -/
def optTruthy : Option Str → Bool
  | none => false
  | some s => !s.isEmpty

/-- Text selected for analysis in `generate_article_snippet` (lines 62-66):
the content if truthy, else the transcript if truthy, each sliced to its
first 3000 characters; empty otherwise. -/
def textToAnalyze (content transcript : Option Str) : Str :=
  if optTruthy content then (content.getD []).take 3000
  else if optTruthy transcript then (transcript.getD []).take 3000
  else []

/-- Fixed prefix of the per-article prompt template (line 79 up to the title). -/
def promptPre : Str :=
  ("Analyze the following article and provide:\n1. A concise 2-3 sentence snippet summarizing the main point\n2. 2-4 key takeaways as bullet points\n\nTitle: ").data

/-- Middle segment of the per-article prompt template, between title and text. -/
def promptMid : Str := ("\nContent:\n").data

/-- Fixed suffix of the per-article prompt template. -/
def promptSuf : Str :=
  ("\n\nProvide your response in this format:\nSNIPPET: [your snippet here]\nKEY POINTS:\n- [point 1]\n- [point 2]\n- [point 3]").data

/-- The per-article prompt f-string (lines 79-92). -/
def buildSnippetPrompt (title text : Str) : Str :=
  promptPre ++ title ++ promptMid ++ text ++ promptSuf

/-- Parsing of the per-article model response (lines 105-121): the raw text is
first stripped; the snippet is the stripped text between the first `SNIPPET:`
marker and the following `KEY POINTS:` marker; the key points are the lines
after the first `KEY POINTS:` marker that are non-empty and start with a dash
after stripping, each stripped of surrounding dashes/spaces and whitespace. -/
def parseSnippetResponse (raw : Str) : Str × List Str :=
  (if containsSub sSNIPPET (pyStrip raw) then
     pyStrip ((pySplit sKEYPOINTS ((pySplit sSNIPPET (pyStrip raw)).getD 1 [])).getD 0 [])
   else [],
   if containsSub sKEYPOINTS (pyStrip raw) then
     ((pySplit sNL (pyStrip ((pySplit sKEYPOINTS (pyStrip raw)).getD 1 []))).filter
        (fun line => !(pyStrip line).isEmpty && strStarts sDash (pyStrip line))).map
       (fun line => pyStrip (pyStripDashSpace line))
   else [])

/-- `AISummarizer.generate_article_snippet` (lines 40-139). The model
completion service is a parameter returning `none` on a raised request error;
the returned Bool records whether a completion request was issued. -/
def generate_article_snippet (model : Str → Option Str) (article_id : Nat)
    (title url : Str) (content transcript : Option Str) : ArticleSummary × Bool :=
  if (textToAnalyze content transcript).isEmpty then
    (⟨article_id, title, url, sContentNA, []⟩, false)
  else
    match model (buildSnippetPrompt title (textToAnalyze content transcript)) with
    | none => (⟨article_id, title, url, sErrorSummary, []⟩, true)
    | some raw =>
      (⟨article_id, title, url,
        if (parseSnippetResponse raw).1.isEmpty then sUnableSnippet
        else (parseSnippetResponse raw).1,
        (parseSnippetResponse raw).2⟩, true)

/-- Parsing of the aggregate model response (lines 192-208), same marker
grammar with `OVERALL SUMMARY:` and `KEY INSIGHTS:`. -/
def parseOverallResponse (raw : Str) : Str × List Str :=
  (if containsSub sOVERALL (pyStrip raw) then
     pyStrip ((pySplit sINSIGHTS ((pySplit sOVERALL (pyStrip raw)).getD 1 [])).getD 0 [])
   else [],
   if containsSub sINSIGHTS (pyStrip raw) then
     ((pySplit sNL (pyStrip ((pySplit sINSIGHTS (pyStrip raw)).getD 1 []))).filter
        (fun line => !(pyStrip line).isEmpty && strStarts sDash (pyStrip line))).map
       (fun line => pyStrip (pyStripDashSpace line))
   else [])

/-- One article block of the aggregated prompt (line 160). -/
def enumArticleLine (idx : Nat) (s : ArticleSummary) : Str :=
  ("Article ").data ++ (Nat.repr (idx + 1)).data ++ (": ").data ++ s.title ++ sNL
    ++ s.snippet ++ sNL ++ ("Key points: ").data ++ joinSep ((", ").data) s.key_points

/-- The aggregated `articles_text` (lines 159-162). -/
def articlesText (summaries : List ArticleSummary) : Str :=
  joinSep (("\n\n").data) (summaries.enum.map (fun pr => enumArticleLine pr.1 pr.2))

/-- Fixed prefix of the aggregate prompt template (lines 164-169). -/
def overallPre : Str :=
  ("Based on the following collection of tech news articles, provide:\n1. An overall summary (3-4 sentences) of the main themes and developments\n2. 3-5 key insights or trends emerging from these articles\n\nArticles:\n").data

/-- Fixed suffix of the aggregate prompt template (lines 171-179). -/
def overallSuf : Str :=
  ("\n\nProvide your response in this format:\nOVERALL SUMMARY: [your summary here]\n\nKEY INSIGHTS:\n- [insight 1]\n- [insight 2]\n- [insight 3]\n- [insight 4]\n- [insight 5]").data

/-- The aggregate prompt f-string. -/
def buildOverallPrompt (txt : Str) : Str :=
  overallPre ++ txt ++ overallSuf

/-- `AISummarizer.generate_overall_summary` (lines 141-222). -/
def generate_overall_summary (model : Str → Option Str)
    (article_summaries : List ArticleSummary) : DigestSummary × Bool :=
  if article_summaries.isEmpty then
    (⟨sNoArticles, [], []⟩, false)
  else
    match model (buildOverallPrompt (articlesText article_summaries)) with
    | none => (⟨sErrorOverall, [], article_summaries⟩, true)
    | some raw =>
      (⟨if (parseOverallResponse raw).1.isEmpty then sUnableOverall
        else (parseOverallResponse raw).1,
        (parseOverallResponse raw).2, article_summaries⟩, true)

/-! ## Store and ingestion model (`app/services/database.py`, `app/services/scraping.py`) -/

/-- A `datetime` carried opaquely as its six components. -/
abbrev Date6 := Nat × Nat × Nat × Nat × Nat × Nat

/-- Normalized scraped item (`ScrapedArticle` dataclass in `app/scrapers/base.py`). -/
structure ScrapedArticle where
  title : Str
  url : Str
  content : Option Str := none
  transcript : Option Str := none
  published_date : Option Date6 := none
deriving DecidableEq

/-- A persisted row of the `articles` table (`app/models/article.py`). -/
structure ArticleRow where
  id : Nat
  source_id : Nat
  title : Str
  url : Str
  content : Option Str
  summary : Option Str
  transcript : Option Str
  published_date : Option Date6
deriving DecidableEq

/-- The article store: the rows in insertion order plus the autoincrement counter. -/
structure DBState where
  articles : List ArticleRow
  nextId : Nat
deriving DecidableEq

/-- A row of the `sources` table, restricted to the fields the ingestion uses. -/
structure Source where
  id : Nat
  name : Str
  url : Str
  active : Bool
deriving DecidableEq

/-- `DatabaseService.get_article_by_url`: first row whose URL matches. -/
def getArticleByUrl (db : DBState) (url : Str) : Option ArticleRow :=
  db.articles.find? (fun a => a.url == url)

/-- `DatabaseService.create_article`: insert one new row with the next id. -/
def createArticle (db : DBState) (source_id : Nat) (title url : Str)
    (content summary transcript : Option Str) (published_date : Option Date6) :
    DBState × ArticleRow :=
  (⟨db.articles ++ [⟨db.nextId, source_id, title, url, content, summary, transcript, published_date⟩],
    db.nextId + 1⟩,
   ⟨db.nextId, source_id, title, url, content, summary, transcript, published_date⟩)

/-- `ScrapingService._save_scraped_articles` (lines 50-86): for each scraped
item in order, skip it when a row with its URL already exists, otherwise
insert a new row; returns the updated store and the newly inserted rows. -/
def saveScrapedArticles (source_id : Nat) : DBState → List ScrapedArticle → DBState × List ArticleRow
  | db, [] => (db, [])
  | db, s :: rest =>
    match getArticleByUrl db s.url with
    | some _ => saveScrapedArticles source_id db rest
    | none =>
      ((saveScrapedArticles source_id
          (createArticle db source_id s.title s.url s.content none s.transcript s.published_date).1 rest).1,
       (createArticle db source_id s.title s.url s.content none s.transcript s.published_date).2 ::
       (saveScrapedArticles source_id
          (createArticle db source_id s.title s.url s.content none s.transcript s.published_date).1 rest).2)

/-- `ScrapingService.scrape_source` (lines 88-113): run the connector for the
source; a raised connector exception is caught and yields zero articles with
the store untouched, otherwise the scraped items are saved. -/
def scrapeSource (connector : Source → Except Unit (List ScrapedArticle))
    (db : DBState) (src : Source) : DBState × List ArticleRow :=
  match connector src with
  | Except.error _ => (db, [])
  | Except.ok scraped => saveScrapedArticles src.id db scraped

/-- `ScrapingService.scrape_all_sources` (lines 115-131): scrape each source in
order, threading the store, and concatenate the newly saved rows. -/
def scrapeAllSources (connector : Source → Except Unit (List ScrapedArticle)) :
    DBState → List Source → DBState × List ArticleRow
  | db, [] => (db, [])
  | db, s :: rest =>
    ((scrapeAllSources connector (scrapeSource connector db s).1 rest).1,
     (scrapeSource connector db s).2 ++
       (scrapeAllSources connector (scrapeSource connector db s).1 rest).2)

/-! ## RSS feed scraper model (`app/scrapers/rss_scraper.py`) -/

/-- A parsed feed entry as `feedparser` exposes it: optional attributes, with
`content` being a list of payloads of which the first value is used. -/
structure FeedEntry where
  title : Option Str := none
  link : Option Str := none
  content : Option (List Str) := none
  summary : Option Str := none
  description : Option Str := none
  published_parsed : Option Date6 := none
  updated_parsed : Option Date6 := none
deriving DecidableEq

/-- The settings fields the RSS scraper reads. -/
structure Settings where
  max_articles_per_source : Nat
deriving DecidableEq

/-- Per-source configuration options for the RSS scraper. -/
structure FeedConfig where
  max_articles : Option Nat := none
deriving DecidableEq

/-- Line 27: `config.get("max_articles", default)` when a config is given,
else the settings default. -/
def effectiveMax (config : Option FeedConfig) (dflt : Nat) : Nat :=
  match config with
  | some cf => cf.max_articles.getD dflt
  | none => dflt

/-- Content-field selection (lines 49-55): prefer a non-empty `content` list's
first value, then `summary`, then `description`. -/
def entryContent (e : FeedEntry) : Option Str :=
  match e.content with
  | some (v :: _) => some v
  | _ =>
    match e.summary with
    | some s => some s
    | none => e.description

/-- The body of the per-entry loop (lines 40-75): entries without a link are
skipped; truthy content is converted to markdown (modelled by the parameter
`md0`) and stripped; the publish date prefers `published_parsed` over
`updated_parsed`. -/
def entryToArticle (md0 : Str → Str) (e : FeedEntry) : Option ScrapedArticle :=
  if (e.link.getD []).isEmpty then none
  else some
    { title := e.title.getD (("No Title").data)
      url := e.link.getD []
      content :=
        match entryContent e with
        | some c => if c.isEmpty then some c else some (pyStrip (md0 c))
        | none => none
      transcript := none
      published_date :=
        match e.published_parsed with
        | some d => some d
        | none => e.updated_parsed }

/-- `RSSFeedScraper.scrape` (lines 16-81): truncate the entry list to the
effective maximum, then convert entries, skipping link-less ones. -/
def rssScrape (st : Settings) (md0 : Str → Str) (config : Option FeedConfig)
    (entries : List FeedEntry) : List ScrapedArticle :=
  (entries.take (effectiveMax config st.max_articles_per_source)).filterMap (entryToArticle md0)

/-! ## Spec-side description of the key-point extraction (for claim C4) -/

/-- The lines following the first `KEY POINTS:` marker of the stripped output. -/
def keyPointLines (raw : Str) : List Str :=
  pySplit sNL (pyStrip ((pySplit sKEYPOINTS (pyStrip raw)).getD 1 []))

/-- The filter the code applies to a candidate key-point line: non-empty after
stripping whitespace AND starting with a dash after stripping whitespace. -/
def isBulletLine (line : Str) : Bool :=
  !(pyStrip line).isEmpty && strStarts sDash (pyStrip line)

/-- The cleanup applied to a collected key-point line. -/
def cleanBullet (line : Str) : Str :=
  pyStrip (pyStripDashSpace line)

/-- Amended description of key-point extraction: only bullet lines are kept,
in order, each cleaned by `cleanBullet`. -/
def specKeyPoints (raw : Str) : List Str :=
  if containsSub sKEYPOINTS (pyStrip raw) then
    ((keyPointLines raw).filter isBulletLine).map cleanBullet
  else []

/-- The lines following the first `KEY INSIGHTS:` marker of the stripped output. -/
def insightLines (raw : Str) : List Str :=
  pySplit sNL (pyStrip ((pySplit sINSIGHTS (pyStrip raw)).getD 1 []))

/-- Amended description of insight extraction, mirroring `specKeyPoints`. -/
def specInsights (raw : Str) : List Str :=
  if containsSub sINSIGHTS (pyStrip raw) then
    ((insightLines raw).filter isBulletLine).map cleanBullet
  else []

/-! ## Concrete fixtures used by witnesses and counterexamples -/

/-- A store holding exactly one row, keyed by the URL that claim C1's witness
item duplicates. -/
def rowW : ArticleRow :=
  ⟨0, 1, ("T").data, ("https://x/y").data, none, none, none, none⟩

def dbW : DBState := ⟨[rowW], 1⟩

def itemDup : ScrapedArticle := { title := ("T2").data, url := ("https://x/y").data }

def itemNew : ScrapedArticle := { title := ("T3").data, url := ("https://x/z").data }

def dbEmpty : DBState := ⟨[], 0⟩

def srcA : Source := ⟨1, ("A").data, ("ua").data, true⟩

def srcB : Source := ⟨2, ("B").data, ("ub").data, true⟩

def srcC : Source := ⟨3, ("C").data, ("uc").data, true⟩

/-- A connector that raises exactly for the source with id 2 and returns one
scraped item for the others. -/
def connW : Source → Except Unit (List ScrapedArticle) :=
  fun s => if s.id == 2 then Except.error () else Except.ok [itemNew]

/-- Model output carrying a non-empty line with no bullet marker after the
`KEY POINTS:` marker. -/
def exC4 : Str := ("KEY POINTS:\nalpha\n- two").data

/-- A model output containing neither marker. -/
def exNoMarkers : Str := ("hello world").data

/-- A 3001-character body, longer than the 3000-character budget. -/
def cLong : Str := List.replicate 3001 ('a')

/-- Fixed title shared by the witness feed entries. -/
def feedTitle : Str := ("T").data

/-- The i-th witness feed entry, with a distinct link. -/
def mkEntry (i : Nat) : FeedEntry :=
  { title := some feedTitle, link := some [('u'), Char.ofNat (48 + i)] }

/-- A feed of 15 well-formed entries. -/
def feed15 : List FeedEntry := (List.range 15).map mkEntry

/-- The articles derived from the first 10 witness entries, in feed order. -/
def expected10 : List ScrapedArticle :=
  (List.range 10).map (fun i => { title := feedTitle, url := [('u'), Char.ofNat (48 + i)] })

/-- Model output whose bullet lines strip to an empty string and to a string
that still starts with a dash (a tab survives the dash/space strip). -/
def exC10 : Str := ("KEY POINTS:\n- -\n-\t- a\n- ok").data

/-! ## Validation of the Python string semantics on concrete inputs -/

example : pySplit (("b").data) (("abc").data) = [("a").data, ("c").data] := by decide
example : pySplit (("b").data) (("ab").data) = [("a").data, []] := by decide
example : pySplit ((",").data) (("a,,c").data) = [("a").data, [], ("c").data] := by decide
example : pyStrip (("  a b\n").data) = ("a b").data := by decide
example : pyStripDashSpace (("- a -\t-").data) = ("a -\t").data := by decide
example : containsSub (("bc").data) (("abcd").data) = true := by decide
example : containsSub (("bd").data) (("abcd").data) = false := by decide

/-! ## Boundary lemmas for stripped strings -/

/-- If dropping a predicate's prefix leaves a head, that head fails the predicate. -/
theorem head?_dropWhile_false (p : Char → Bool) (l : Str) (ch : Char)
    (h : (l.dropWhile p).head? = some ch) : p ch = false := by
  have hm := List.head?_dropWhile_not p l
  rw [h] at hm
  exact hm

/-- Dropping a prefix does not change a surviving last element. -/
theorem getLast?_dropWhile_eq (p : Char → Bool) (l : Str) (ch : Char)
    (h : (l.dropWhile p).getLast? = some ch) : l.getLast? = some ch := by
  induction l with
  | nil => simp at h
  | cons a l ih =>
    rw [List.dropWhile_cons] at h
    by_cases hpa : p a = true
    · rw [if_pos hpa] at h
      have hl := ih h
      cases l with
      | nil => simp at hl
      | cons b l2 => rw [List.getLast?_cons_cons]; exact hl
    · rw [if_neg hpa] at h
      exact h

/-- The head surviving `pyStripBy p` fails `p`. -/
theorem head?_pyStripBy_false (p : Char → Bool) (s : Str) (ch : Char)
    (h : (pyStripBy p s).head? = some ch) : p ch = false := by
  unfold pyStripBy dropTrail at h
  rw [List.head?_reverse] at h
  have h2 : ((s.dropWhile p).reverse).getLast? = some ch := getLast?_dropWhile_eq p _ ch h
  rw [List.getLast?_reverse] at h2
  exact head?_dropWhile_false p _ ch h2

/-- The last element surviving `pyStripBy p` fails `p`. -/
theorem getLast?_pyStripBy_false (p : Char → Bool) (s : Str) (ch : Char)
    (h : (pyStripBy p s).getLast? = some ch) : p ch = false := by
  unfold pyStripBy dropTrail at h
  rw [List.getLast?_reverse] at h
  exact head?_dropWhile_false p _ ch h

/-! ## Claim theorems -/

/-- Claim C1: if an article with a given URL already exists in the store, then
processing a newly scraped item with that same URL inserts zero new rows and
leaves the store — and hence every field of every existing row — unchanged;
the item is skipped, and the remaining items are processed as if it were
absent. -/
theorem c1_dedup_noop : ∀ (sid : Nat) (db : DBState) (s : ScrapedArticle)
    (rest : List ScrapedArticle), (getArticleByUrl db s.url).isSome = true →
    saveScrapedArticles sid db (s :: rest) = saveScrapedArticles sid db rest ∧
    saveScrapedArticles sid db [s] = (db, []) := by
  intro sid db s rest h
  obtain ⟨r, hr⟩ := Option.isSome_iff_exists.mp h
  constructor
  · simp only [saveScrapedArticles, hr]
  · simp only [saveScrapedArticles, hr]

/-- Witness for claim C1 at a concrete store and scraped item. -/
theorem c1_witness :
    saveScrapedArticles 1 dbW (itemDup :: [itemNew]) = saveScrapedArticles 1 dbW [itemNew] ∧
    saveScrapedArticles 1 dbW [itemDup] = (dbW, []) :=
  c1_dedup_noop 1 dbW itemDup [itemNew] (by decide)

/-- Claim C2: a connector exception for one source is caught, the source
contributes zero articles and leaves the store untouched, every remaining
source is still scraped in the same pass, and the overall pass returns the
concatenation of per-source newly inserted rows in source-iteration order. -/
theorem c2_failure_containment :
    ∀ (connector : Source → Except Unit (List ScrapedArticle)) (a : Source),
    connector a = Except.error () →
    (∀ db : DBState, scrapeSource connector db a = (db, [])) ∧
    (∀ (db : DBState) (pre post : List Source),
      scrapeAllSources connector db (pre ++ a :: post) =
        scrapeAllSources connector db (pre ++ post)) ∧
    (∀ (db : DBState) (s : Source) (rest : List Source),
      (scrapeAllSources connector db (s :: rest)).2 =
        (scrapeSource connector db s).2 ++
          (scrapeAllSources connector (scrapeSource connector db s).1 rest).2) := by
  intro connector a h
  refine ⟨?_, ?_, ?_⟩
  · intro db
    simp only [scrapeSource, h]
  · intro db pre post
    induction pre generalizing db with
    | nil =>
      simp only [List.nil_append, scrapeAllSources, scrapeSource, h]
    | cons s pre ih =>
      simp only [List.cons_append, scrapeAllSources, List.append_eq]
      rw [ih]
  · intro db s rest
    rfl

/-- Witness for claim C2: with a connector failing on the middle of three
sources, the pass equals the pass over the other two sources. -/
theorem c2_witness :
    scrapeAllSources connW dbEmpty (srcA :: srcB :: [srcC]) =
      scrapeAllSources connW dbEmpty (srcA :: [srcC]) ∧
    scrapeSource connW dbEmpty srcB = (dbEmpty, []) :=
  have h := c2_failure_containment connW srcB rfl
  ⟨h.2.1 dbEmpty [srcA] [srcC], h.1 dbEmpty⟩

/-- Claim C3: for the model output
`"SNIPPET: A calm day.\nKEY POINTS:\n- one\n- two"` the per-item response
parser produces snippet `"A calm day."` and key points `["one", "two"]`. -/
theorem c3_round_trip :
    parseSnippetResponse (("SNIPPET: A calm day.\nKEY POINTS:\n- one\n- two").data) =
      (("A calm day.").data, [("one").data, ("two").data]) := by
  decide

/-- Claim C4 counterexample: the line `alpha` is non-empty after trimming
whitespace and a (vacuous) leading bullet marker, yet the parser does not
collect it — only the bulleted line `- two` is collected. -/
theorem c4_counterexample :
    (parseSnippetResponse exC4).2 = [("two").data] ∧
    pyStrip (("alpha").data) ≠ [] ∧
    ¬ (("alpha").data ∈ (parseSnippetResponse exC4).2) := by
  decide

/-- Claim C4 amended: the parser collects, preserving order, exactly those
subsequent lines that are non-empty after trimming whitespace AND start with
a dash after trimming whitespace, each stripped of surrounding dashes/spaces
and whitespace; lines carrying no bullet marker are skipped, so the number of
key points is the number of bullet lines. -/
theorem c4_bullet_lines_only : ∀ raw : Str,
    (parseSnippetResponse raw).2 = specKeyPoints raw ∧
    (containsSub sKEYPOINTS (pyStrip raw) = true →
      (parseSnippetResponse raw).2.length = (keyPointLines raw).countP isBulletLine) := by
  intro raw
  have h1 : (parseSnippetResponse raw).2 = specKeyPoints raw := rfl
  refine ⟨h1, ?_⟩
  intro h
  rw [h1]
  simp only [specKeyPoints, h, if_true, List.length_map]
  rw [List.countP_eq_length_filter]

/-- Witness for the amended claim C4 at the counterexample input. -/
theorem c4_witness :
    (parseSnippetResponse exC4).2.length = (keyPointLines exC4).countP isBulletLine :=
  (c4_bullet_lines_only exC4).2 (by decide)

/-- Claim C5: an absent `KEY POINTS:` marker yields the empty key-point list,
an absent `SNIPPET:` marker yields an empty parsed snippet, which the
returned `ArticleSummary` replaces with the "Unable to generate snippet."
sentinel; no failure is raised (the parse is total). -/
theorem c5_missing_markers : ∀ raw : Str,
    (containsSub sKEYPOINTS (pyStrip raw) = false → (parseSnippetResponse raw).2 = []) ∧
    (containsSub sSNIPPET (pyStrip raw) = false → (parseSnippetResponse raw).1 = []) ∧
    (∀ (i : Nat) (title url : Str) (content transcript : Option Str),
      optTruthy content = true → containsSub sSNIPPET (pyStrip raw) = false →
      ((generate_article_snippet (fun _ => some raw) i title url content transcript).1).snippet =
        sUnableSnippet) := by
  intro raw
  refine ⟨?_, ?_, ?_⟩
  · intro h
    simp only [parseSnippetResponse, h, if_false, Bool.false_eq_true]
  · intro h
    simp only [parseSnippetResponse, h, if_false, Bool.false_eq_true]
  · intro i title url content transcript hc h
    obtain ⟨c, rfl⟩ : ∃ c, content = some c := by
      cases content with
      | none => simp [optTruthy] at hc
      | some c => exact ⟨c, rfl⟩
    have hcne : c.isEmpty = false := by
      cases hcc : c.isEmpty with
      | false => rfl
      | true => rw [optTruthy, hcc] at hc; simp at hc
    have htext : (textToAnalyze (some c) transcript).isEmpty = false := by
      simp only [textToAnalyze, optTruthy, hcne, Bool.not_false, if_true, Option.getD_some]
      cases c with
      | nil => simp at hcne
      | cons ch cs => rfl
    have hsn : (parseSnippetResponse raw).1 = [] := by
      simp only [parseSnippetResponse, h, if_false, Bool.false_eq_true]
    simp only [generate_article_snippet, htext, Bool.false_eq_true, if_false, hsn,
      List.isEmpty_nil, if_true]

/-- Witness for claim C5 at a concrete marker-free model output. -/
theorem c5_witness :
    (parseSnippetResponse exNoMarkers).2 = [] ∧
    ((generate_article_snippet (fun _ => some exNoMarkers) 1 [] []
        (some [('x')]) none).1).snippet = sUnableSnippet :=
  ⟨(c5_missing_markers exNoMarkers).1 (by decide),
   (c5_missing_markers exNoMarkers).2.2 1 [] [] (some [('x')]) none (by decide) (by decide)⟩

/-- Claim C6: when body and transcript are both absent or empty, the per-item
summarizer returns the "Content not available for analysis." sentinel with an
empty key-point list, and issues no model completion request (the call flag
is false for every model function). -/
theorem c6_no_content : ∀ (model : Str → Option Str) (i : Nat) (title url : Str)
    (content transcript : Option Str),
    optTruthy content = false → optTruthy transcript = false →
    generate_article_snippet model i title url content transcript =
      (⟨i, title, url, sContentNA, []⟩, false) := by
  intro model i title url content transcript hc ht
  have htext : textToAnalyze content transcript = [] := by
    simp only [textToAnalyze, hc, ht, Bool.false_eq_true, if_false]
  simp only [generate_article_snippet, htext, List.isEmpty_nil, if_true]

/-- Witness for claim C6: absent body, empty transcript, arbitrary model. -/
theorem c6_witness :
    generate_article_snippet (fun _ => none) 7 (("t").data) (("u").data) none (some []) =
      (⟨7, ("t").data, ("u").data, sContentNA, []⟩, false) :=
  c6_no_content (fun _ => none) 7 (("t").data) (("u").data) none (some [])
    (by decide) (by decide)

/-- Claim C7: the text embedded in the model prompt is the body sliced to its
first 3000 characters (or the transcript sliced likewise when the body is
absent); text of length at most 3000 is embedded unchanged. -/
theorem c7_truncation : ∀ (title c t : Str),
    (3000 < c.length →
      buildSnippetPrompt title (textToAnalyze (some c) (some t)) =
        promptPre ++ title ++ promptMid ++ c.take 3000 ++ promptSuf) ∧
    (c ≠ [] → c.length ≤ 3000 →
      buildSnippetPrompt title (textToAnalyze (some c) (some t)) =
        promptPre ++ title ++ promptMid ++ c ++ promptSuf) ∧
    (3000 < t.length →
      buildSnippetPrompt title (textToAnalyze none (some t)) =
        promptPre ++ title ++ promptMid ++ t.take 3000 ++ promptSuf) ∧
    (t ≠ [] → t.length ≤ 3000 →
      buildSnippetPrompt title (textToAnalyze none (some t)) =
        promptPre ++ title ++ promptMid ++ t ++ promptSuf) := by
  intro title c t
  have hc3 : c ≠ [] → textToAnalyze (some c) (some t) = c.take 3000 := by
    intro hc
    cases c with
    | nil => exact absurd rfl hc
    | cons ch cs => simp [textToAnalyze, optTruthy]
  have ht3 : t ≠ [] → textToAnalyze none (some t) = t.take 3000 := by
    intro ht
    cases t with
    | nil => exact absurd rfl ht
    | cons ch cs => simp [textToAnalyze, optTruthy]
  refine ⟨?_, ?_, ?_, ?_⟩
  · intro hlen
    have hc : c ≠ [] := by intro h; subst h; simp at hlen
    simp only [buildSnippetPrompt]
    rw [hc3 hc]
  · intro hc hle
    simp only [buildSnippetPrompt]
    rw [hc3 hc, List.take_of_length_le hle]
  · intro hlen
    have ht : t ≠ [] := by intro h; subst h; simp at hlen
    simp only [buildSnippetPrompt]
    rw [ht3 ht]
  · intro ht hle
    simp only [buildSnippetPrompt]
    rw [ht3 ht, List.take_of_length_le hle]

/-- Witness for claim C7: the over-budget body is sliced; the one-character
transcript is embedded unchanged. -/
theorem c7_witness :
    buildSnippetPrompt [] (textToAnalyze (some cLong) (some [('b')])) =
      promptPre ++ [] ++ promptMid ++ cLong.take 3000 ++ promptSuf ∧
    buildSnippetPrompt [] (textToAnalyze none (some [('b')])) =
      promptPre ++ [] ++ promptMid ++ [('b')] ++ promptSuf :=
  ⟨(c7_truncation [] cLong [('b')]).1 (by norm_num [cLong]),
   (c7_truncation [] cLong [('b')]).2.2.2 (by decide) (by decide)⟩

/-- Claim C8: aggregating the empty list of per-item summaries returns the
"No articles to summarize." sentinel digest with empty insights and empty
summary list, and issues no model completion request. -/
theorem c8_aggregate_empty : ∀ model : Str → Option Str,
    generate_overall_summary model [] = (⟨sNoArticles, [], []⟩, false) := by
  intro model
  rfl

/-- Claim C9: the feed variant returns at most the effective
`max_articles_per_source` articles, and on a 15-entry feed with limit 10 it
returns exactly the articles of the first 10 entries in feed order. -/
theorem c9_feed_limit :
    (∀ (st : Settings) (md0 : Str → Str) (config : Option FeedConfig)
      (entries : List FeedEntry),
      (rssScrape st md0 config entries).length ≤
        effectiveMax config st.max_articles_per_source) ∧
    rssScrape ⟨10⟩ (fun s => s) none feed15 = expected10 := by
  constructor
  · intro st md0 config entries
    calc (rssScrape st md0 config entries).length
        ≤ (entries.take (effectiveMax config st.max_articles_per_source)).length :=
          List.length_filterMap_le _ _
      _ ≤ effectiveMax config st.max_articles_per_source := by
          rw [List.length_take]
          exact Nat.min_le_left _ _
  · decide

/-- Claim C10 counterexample: the parser produces the empty key point `""`
(from the line `- -`) and the key point `"- a"` which begins with a dash
(from the line with an inner tab). -/
theorem c10_counterexample :
    ([] : Str) ∈ (parseSnippetResponse exC10).2 ∧
    ("- a").data ∈ (parseSnippetResponse exC10).2 ∧
    strStarts sDash (("- a").data) = true := by
  decide

/-- Claim C10 amended: every key-point and insight string the two response
parsers produce is a collected line stripped of its surrounding dashes and
spaces and then of surrounding whitespace; consequently it neither begins nor
ends with a whitespace character (in particular not with a space), though it
may be empty or may begin or end with a dash when a non-space whitespace
character separates dashes. -/
theorem c10_trimmed_boundaries : ∀ (raw p : Str),
    (p ∈ (parseSnippetResponse raw).2 ∨ p ∈ (parseOverallResponse raw).2) →
    (p.head?.all (fun ch => !pyIsSpace ch)) = true ∧
    (p.getLast?.all (fun ch => !pyIsSpace ch)) = true := by
  intro raw p hmem
  have e1 : (parseSnippetResponse raw).2 = specKeyPoints raw := rfl
  have e2 : (parseOverallResponse raw).2 = specInsights raw := rfl
  have hform : ∃ line : Str, p = cleanBullet line := by
    rcases hmem with h | h
    · rw [e1] at h
      simp only [specKeyPoints] at h
      split at h
      · obtain ⟨line, _, hl⟩ := List.mem_map.mp h
        exact ⟨line, hl.symm⟩
      · simp at h
    · rw [e2] at h
      simp only [specInsights] at h
      split at h
      · obtain ⟨line, _, hl⟩ := List.mem_map.mp h
        exact ⟨line, hl.symm⟩
      · simp at h
  obtain ⟨line, rfl⟩ := hform
  simp only [cleanBullet]
  constructor
  · cases hh : (pyStrip (pyStripDashSpace line)).head? with
    | none => rfl
    | some ch =>
      have hf := head?_pyStripBy_false pyIsSpace (pyStripDashSpace line) ch hh
      simp [Option.all, hf]
  · cases hh : (pyStrip (pyStripDashSpace line)).getLast? with
    | none => rfl
    | some ch =>
      have hf := getLast?_pyStripBy_false pyIsSpace (pyStripDashSpace line) ch hh
      simp [Option.all, hf]

/-- Witness for the amended claim C10 at a concretely produced key point. -/
theorem c10_witness :
    ((("ok").data : Str).head?.all (fun ch => !pyIsSpace ch)) = true ∧
    ((("ok").data : Str).getLast?.all (fun ch => !pyIsSpace ch)) = true :=
  c10_trimmed_boundaries exC10 (("ok").data) (Or.inl (by decide))
